import Mathlib

/-!
Shallow embedding of the groundwater-comparison chat pipeline (app.py):
parameter extraction, per-location fetch, series normalization
(`process_groundwater_data`), aggregation, summarization, and the
per-turn orchestration with its single outer exception handler.

External effects (the language-model calls, the HTTP data provider, the
web-search client, and the MongoDB message log) are modelled as an
environment record supplying each call's outcome; everything the script
itself computes is embedded as executable Lean functions.
-/

namespace Groundwater

/-- Values produced by `json.loads`: the JSON data model used throughout
the script (extraction results, provider payloads). -/
inductive JValue where
  | null
  | bool (b : Bool)
  | num  (n : Int)
  | str  (s : String)
  | arr  (xs : List JValue)
  | obj  (fields : List (String × JValue))

/-- Dictionary lookup, `fields[k]` on a parsed JSON object (keys assumed
distinct, as `json.loads` keeps one binding per key). -/
def lookupField (fs : List (String × JValue)) (k : String) : Option JValue :=
  (fs.find? (fun p => p.1 == k)).map (fun p => p.2)

/-- Python truthiness of a JSON value, as used by
`if params.get("is_data_request"):` and `if not locations:`. -/
def JValue.truthy : JValue → Bool
  | .null => false
  | .bool b => b
  | .num n => n != 0
  | .str s => !s.data.isEmpty
  | .arr xs => !xs.isEmpty
  | .obj fs => !fs.isEmpty

/-- View of a JSON value as an object (a Python dict). -/
def JValue.asObj : JValue → Option (List (String × JValue))
  | .obj fs => some fs
  | _ => none

/- ## Timestamp parsing: model of pandas `to_datetime(..., errors="coerce")`
restricted to the provider's `dataTime` strings (`YYYY-MM-DD`, optionally
followed by ` HH:MM:SS`). The result is an integer encoding that is
strictly monotone in chronological order, which is all the pipeline uses
(sorting and non-nullness). -/

/-- Split a character list on a separator character. -/
def splitChar (sep : Char) : List Char → List (List Char)
  | [] => [[]]
  | c :: cs =>
    match splitChar sep cs with
    | [] => [[]]
    | g :: gs => if c = sep then [] :: g :: gs else (c :: g) :: gs

/-- Decimal digit value of a character, when it is a digit. -/
def digitVal (c : Char) : Option Nat :=
  if '0' ≤ c ∧ c ≤ '9' then some (c.toNat - '0'.toNat) else none

/-- Value of a non-empty all-digit character list, read in base 10. -/
def digitsVal : List Char → Option Nat
  | [] => none
  | cs => cs.foldl (fun acc c => acc.bind (fun a => (digitVal c).map (fun d => a * 10 + d))) (some 0)

/-- Parse `YYYY-MM-DD` into a chronologically monotone day number. -/
def parseDatePart (cs : List Char) : Option Nat :=
  match splitChar '-' cs with
  | [y, mo, d] =>
    (digitsVal y).bind fun yv =>
      (digitsVal mo).bind fun mv =>
        (digitsVal d).bind fun dv =>
          if 1 ≤ mv ∧ mv ≤ 12 ∧ 1 ≤ dv ∧ dv ≤ 31 then
            some ((yv * 12 + mv) * 31 + dv)
          else none
  | _ => none

/-- Parse `HH:MM:SS` into seconds of day. -/
def parseTimePart (cs : List Char) : Option Nat :=
  match splitChar ':' cs with
  | [h, m, s] =>
    (digitsVal h).bind fun hv =>
      (digitsVal m).bind fun mv =>
        (digitsVal s).bind fun sv =>
          if hv < 24 ∧ mv < 60 ∧ sv < 60 then
            some (hv * 3600 + mv * 60 + sv)
          else none
  | _ => none

/-- Parse a provider time string (date, optionally followed by a space and
a time of day) into a monotone integer timestamp. -/
def parseTimestampStr (s : String) : Option Int :=
  match splitChar ' ' s.data with
  | [d] => (parseDatePart d).map (fun dv => (dv : Int) * 86400)
  | [d, t] =>
    (parseDatePart d).bind fun dv =>
      (parseTimePart t).map (fun tv => (dv : Int) * 86400 + (tv : Int))
  | _ => none

/-- Coercion of one `dataTime` cell, `pd.to_datetime(cell, errors="coerce")`:
a missing cell (NaN) or a null coerces to NaT (`none`); a string is parsed;
a number is epoch-interpreted (kept as its own monotone value); non-scalar
cells coerce to NaT. -/
def parseCellTime : Option JValue → Option Int
  | some (.str s) => parseTimestampStr s
  | some (.num n) => some n
  | _ => none

/- ## Normalization: `process_groundwater_data` -/

/-- One row of a normalized table: the coerced `timestamp` column, the
provider record's original fields (the `dataValue` and `stationName`
columns pass through here untouched), and the stamped `District` column. -/
structure Row where
  timestamp : Int
  record : List (String × JValue)
  district : JValue

/-- Ordering used by `df.sort_values("timestamp")`. -/
def byTime (a b : Row) : Prop := a.timestamp ≤ b.timestamp

instance : DecidableRel byTime :=
  fun a b => inferInstanceAs (Decidable (a.timestamp ≤ b.timestamp))

instance : IsTotal Row byTime := ⟨fun a b => Int.le_total a.timestamp b.timestamp⟩

instance : IsTrans Row byTime := ⟨fun _ _ _ h h' => le_trans h h'⟩

/-- Ascending sort by the timestamp column (`df.sort_values("timestamp")`). -/
def sortRows (rows : List Row) : List Row :=
  List.insertionSort byTime rows

/-- Wrapper-key unwrapping: `for key in ["content", "data", "result"]:
if key in data: data = data[key]; break` — the first present key is
unwrapped once; with no match the dict is kept (and rejected below). -/
def unwrapData (v : JValue) : JValue :=
  match v with
  | .obj fs =>
    match lookupField fs "content" with
    | some inner => inner
    | none =>
      match lookupField fs "data" with
      | some inner => inner
      | none =>
        match lookupField fs "result" with
        | some inner => inner
        | none => .obj fs
  | v => v

/-- View of a record list as a list of dicts, the case in which
`pd.DataFrame(data)` yields a keyed frame. When some element is not a
dict, the real frame either lacks the `dataTime`/`dataValue` columns or
the constructor raises into the function's `except` — both paths return
`(None, False)` below, so the collapse to `none` here is observationally
exact. -/
def toRecords : List JValue → Option (List (List (String × JValue)))
  | [] => some []
  | x :: xs =>
    (x.asObj).bind fun r => (toRecords xs).map fun rs => r :: rs

/-- Column membership of `pd.DataFrame(list-of-dicts)`: the frame's
columns are the union of the records' keys. -/
def hasColumn (rs : List (List (String × JValue))) (k : String) : Bool :=
  rs.any (fun r => (lookupField r k).isSome)

/-- Coerce one record into a row: keep it iff its `dataTime` cell parses
(`dropna(subset=["timestamp"])` after the coercion). -/
def rowOf (label : JValue) (r : List (String × JValue)) : Option Row :=
  (parseCellTime (lookupField r "dataTime")).map (fun t => ⟨t, r, label⟩)

/-- Outcome of fetching and reading one provider body:
`none` — no response text or an empty one (`if not json_input`);
`some none` — `json.loads` raised;
`some (some v)` — the body parsed as the JSON value `v`. -/
abbrev RawInput := Option (Option JValue)

/-- Embedding of `process_groundwater_data(json_input, district_name)`.
`some df` stands for the `(df, True)` return, `none` for `(None, False)`. -/
def process_groundwater_data (json_input : RawInput) (district_name : JValue) :
    Option (List Row) :=
  match json_input with
  | none => none
  | some none => none
  | some (some parsed) =>
    match unwrapData parsed with
    | .arr items =>
      match toRecords items with
      | none => none
      | some rs =>
        if hasColumn rs "dataTime" && hasColumn rs "dataValue" then
          if (rs.filterMap (rowOf district_name)).isEmpty then none
          else some (sortRows (rs.filterMap (rowOf district_name)))
        else none
    | _ => none

/- ## Orchestration: the main chat logic of one user turn -/

/-- Python exceptions the main logic can raise into its outer handler. -/
inductive PyError where
  | keyError (k : String)
  | attributeError
  | typeError
deriving DecidableEq

/-- Message shown by the outer handler for a raised exception. -/
def PyError.msg : PyError → String
  | .keyError k => "KeyError: " ++ k
  | .attributeError => "AttributeError"
  | .typeError => "TypeError"

/-- `v.get(k)` on a Python value: returns the (optional) member on a dict,
raises `AttributeError` on anything else. -/
def pyGet (v : JValue) (k : String) : Except PyError (Option JValue) :=
  match v with
  | .obj fs => .ok (lookupField fs k)
  | _ => .error .attributeError

/-- `v[k]` with a string key on a Python value: `KeyError` on a dict
missing the key, `TypeError` on a non-dict. -/
def pyIndex (v : JValue) (k : String) : Except PyError JValue :=
  match v with
  | .obj fs =>
    match lookupField fs k with
    | some x => .ok x
    | none => .error (.keyError k)
  | _ => .error .typeError

/-- Arguments of one `fetch_groundwater_api` call (the request parameters
`stateName`, `districtName`, `startdate`, `enddate`; the agency filter and
pagination are constants). -/
structure FetchCall where
  state : JValue
  district : JValue
  start_date : JValue
  end_date : JValue

/-- One entry of `st.session_state.chat_history`. -/
structure ChatMsg where
  sender : String
  content : String

/-- The session state the turn reads and writes: the chat history and the
last displayed comparison dataset (`st.session_state.groundwater_data`,
absent until first set). -/
structure SessionState where
  chat_history : List ChatMsg
  groundwater_data : Option (List Row)

/-- Outcomes of the external collaborators during one turn.
`fetch` gives, per argument tuple, the provider outcome consumed by
normalization (see `RawInput`): a `requests` exception or non-200 status
is `none`, exactly as `fetch_groundwater_api` returns `None` for both.
`log` gives `save_message`'s outcome per (sender, content); `.error`
means `insert_one` raised. `summarize` is the outcome of
`model.generate_content(analysis_prompt)`. `general` is the outcome of
the whole body of the general-knowledge branch's inner `try` (web search
plus language-model call). `extract_response` is the outcome of the body
of `extract_params_from_llm`'s `try`: `none` when the model call or
`json.loads` raised, otherwise the parsed JSON value. -/
structure Env where
  extract_response : Option JValue
  fetch : JValue → JValue → JValue → JValue → RawInput
  summarize : Except String String
  general : Except String String
  log : String → String → Except String Unit

/-- Embedding of `extract_params_from_llm`: any exception in the `try`
body yields `{"is_data_request": False}`; otherwise whatever value
`json.loads` produced is returned unchanged (dict or not). -/
def extract_params_from_llm (env : Env) : JValue :=
  match env.extract_response with
  | none => .obj [("is_data_request", .bool false)]
  | some v => v

/-- Per-location body of the fetch loop up to the fetch call: evaluates
`loc["district"]`, `loc.get("state", "")`, `loc["start_date"]`,
`loc["end_date"]` (each indexing may raise) and builds the call. -/
def locCall (loc : JValue) : Except PyError (JValue × FetchCall) :=
  (pyIndex loc "district").bind fun d_name =>
    (pyGet loc "state").bind fun stV =>
      (pyIndex loc "start_date").bind fun sd =>
        (pyIndex loc "end_date").map fun ed =>
          (d_name, ⟨stV.getD (.str ""), d_name, sd, ed⟩)

/-- The `for loc in locations:` loop. First component: the fetch calls
actually issued (those before a raise still happened). Second component:
on normal completion, the accumulated `combined_dfs` and
`valid_districts`; on a raise, the exception (which discards the
accumulators by propagating to the outer handler). -/
def runLocations (env : Env) :
    List JValue → List FetchCall × Except PyError (List (List Row) × List JValue)
  | [] => ([], .ok ([], []))
  | loc :: rest =>
    match locCall loc with
    | .error e => ([], .error e)
    | .ok (d_name, call) =>
      (call :: (runLocations env rest).1,
        (runLocations env rest).2.map fun acc =>
          match process_groundwater_data
              (env.fetch call.state call.district call.start_date call.end_date) d_name with
          | some df =>
            if df.isEmpty then acc else (df :: acc.1, d_name :: acc.2)
          | none => acc)

/-- Result of one turn: the session state after the turn, the provider
calls issued, and the message of `st.error` when the outer handler fired
(`none` when the turn ran to `st.rerun()`). -/
structure TurnResult where
  state : SessionState
  fetch_calls : List FetchCall
  displayed_error : Option String

/-- Reply when a data request comes with an empty location list. -/
def noLocationsReply : String :=
  "I couldn't identify the district names. Please mention them clearly."

/-- Reply when no requested location yields data. -/
def noDataReply : String :=
  "I couldn't find data for any of the requested locations. " ++
  "Please check the spelling or try a different date range."

/-- Tail of every non-raising branch: `save_message(..., "assistant",
bot_reply)` (which may raise into the outer handler, losing the reply)
followed by the history append. -/
def finishTurn (env : Env) (st : SessionState) (calls : List FetchCall)
    (reply : String) : TurnResult :=
  match env.log "assistant" reply with
  | .error e => ⟨st, calls, some e⟩
  | .ok _ =>
    ⟨⟨st.chat_history ++ [⟨"assistant", reply⟩], st.groundwater_data⟩, calls, none⟩

/-- The `if combined_dfs:` tail of the data branch: on success,
`pd.concat(combined_dfs, ignore_index=True)` replaces the session's
dataset in place, then the comparison summary is requested — a call that
sits outside any inner `try`, so its exception reaches the outer
handler after the dataset was already replaced. -/
def dataBranch (env : Env) (st1 : SessionState) (locs : List JValue) : TurnResult :=
  match runLocations env locs with
  | (calls, .error e) => ⟨st1, calls, some e.msg⟩
  | (calls, .ok (dfs, _valids)) =>
    if dfs.isEmpty then
      finishTurn env st1 calls noDataReply
    else
      let st2 : SessionState := ⟨st1.chat_history, some dfs.flatten⟩
      match env.summarize with
      | .error e => ⟨st2, calls, some e⟩
      | .ok reply => finishTurn env st2 calls reply

/-- Reply of the general-knowledge branch: the inner `try` maps any
exception of the web-search/model calls to an error string reply. -/
def generalReply (env : Env) : String :=
  match env.general with
  | .ok t => t
  | .error e => "Error during web search: " ++ e

/-- The turn after the user message was logged and appended: extraction,
then the data branch or the general branch. A truthy non-list
`locations` value aborts with a `TypeError` before any fetch (either at
the `for` statement or at the first `loc["district"]` on a non-dict
element). -/
def turnBody (env : Env) (st1 : SessionState) : TurnResult :=
  match pyGet (extract_params_from_llm env) "is_data_request" with
  | .error e => ⟨st1, [], some e.msg⟩
  | .ok flag =>
    if (flag.getD .null).truthy then
      match pyGet (extract_params_from_llm env) "locations" with
      | .error e => ⟨st1, [], some e.msg⟩
      | .ok locs? =>
        if !(locs?.getD (.arr [])).truthy then
          finishTurn env st1 [] noLocationsReply
        else
          match locs?.getD (.arr []) with
          | .arr locs => dataBranch env st1 locs
          | _ => ⟨st1, [], some PyError.typeError.msg⟩
    else
      finishTurn env st1 [] (generalReply env)

/-- Embedding of the main chat logic for one user input: the body of
`if user_input:` with its outer `try`/`except`. `save_message` for the
user message runs first and may raise before the history append; state
mutations made before a raise persist (Streamlit session state is
mutated in place); the handler only displays the error. -/
def runTurn (env : Env) (st0 : SessionState) (user_input : String) : TurnResult :=
  match env.log "user" user_input with
  | .error e => ⟨st0, [], some e⟩
  | .ok _ =>
    turnBody env ⟨st0.chat_history ++ [⟨"user", user_input⟩], st0.groundwater_data⟩

/- ## Derived notions used by the stated properties -/

/-- District named by one extracted location entry, when present. -/
def districtOf (loc : JValue) : Option JValue :=
  (loc.asObj).bind (fun fs => lookupField fs "district")

/-- Districts of the extracted location queries of an extraction result. -/
def extractedDistricts (params : JValue) : List JValue :=
  match pyGet params "locations" with
  | .ok (some (.arr locs)) => locs.filterMap districtOf
  | _ => []

/-- A location entry on which the loop body's indexing cannot raise:
a dict carrying `district`, `start_date` and `end_date`. -/
def WellFormedLoc (loc : JValue) : Prop :=
  ∃ fs, loc = .obj fs ∧ (lookupField fs "district").isSome = true ∧
    (lookupField fs "start_date").isSome = true ∧
    (lookupField fs "end_date").isSome = true

/-- The fetch call a location entry gives rise to (total description;
it agrees with the loop body on well-formed entries). -/
def callOfLoc (loc : JValue) : FetchCall :=
  match loc with
  | .obj fs =>
    ⟨(lookupField fs "state").getD (.str ""), (lookupField fs "district").getD .null,
      (lookupField fs "start_date").getD .null, (lookupField fs "end_date").getD .null⟩
  | _ => ⟨.str "", .null, .null, .null⟩
/- ## Concrete environments and sample data used by the witnesses -/

/-- Provider record with a later parseable time and a numeric value. -/
def sampleRecA : List (String × JValue) :=
  [("dataTime", .str "2024-01-02"), ("dataValue", .num 5)]

/-- Provider record with an earlier parseable time and a null value. -/
def sampleRecB : List (String × JValue) :=
  [("dataTime", .str "2024-01-01"), ("dataValue", .null)]

/-- Provider record whose time string does not parse. -/
def sampleRecBad : List (String × JValue) :=
  [("dataTime", .str "oops"), ("dataValue", .num 1)]

/-- A parsed provider body holding the two good records out of order. -/
def sampleRaw : RawInput := some (some (.arr [.obj sampleRecA, .obj sampleRecB]))

/-- An initial session: empty history, no dataset on display. -/
def initState : SessionState := ⟨[], none⟩

/-- C1 env for the witness: one location whose table lacks dataValue. -/
def C1env : Env :=
  ⟨some (.obj [("is_data_request", .bool true),
     ("locations", .arr [.obj [("district", .str "Jaipur"), ("state", .str "RJ"),
        ("start_date", .str "2024-01-01"), ("end_date", .str "2024-01-31")]])]),
   fun _ _ _ _ => some (some (.arr [.obj [("dataTime", .str "2024-01-05")]])),
   .ok "SUM", .ok "GENERAL", fun _ _ => .ok ()⟩

/-- C3 env for the witness: two locations, the first one's fetch fails. -/
def C3env : Env :=
  ⟨some (.obj [("is_data_request", .bool true),
     ("locations", .arr [.obj [("district", .str "Raipur"), ("state", .str "CG"),
        ("start_date", .str "2024-01-01"), ("end_date", .str "2024-01-31")],
      .obj [("district", .str "Bhopal"), ("state", .str "MP"),
        ("start_date", .str "2024-01-01"), ("end_date", .str "2024-01-31")]])]),
   fun _ d _ _ =>
     match d with
     | .str "Raipur" => none
     | _ => some (some (.arr [.obj sampleRecA])),
   .ok "SUM", .ok "GENERAL", fun _ _ => .ok ()⟩

/-- C9 env for the witness: a previously displayed dataset, all fetches fail. -/
def C9env : Env :=
  ⟨some (.obj [("is_data_request", .bool true),
     ("locations", .arr [.obj [("district", .str "Jaipur"), ("state", .str "RJ"),
        ("start_date", .str "2024-01-01"), ("end_date", .str "2024-01-31")]])]),
   fun _ _ _ _ => none, .ok "SUM", .ok "GENERAL", fun _ _ => .ok ()⟩

/-- Session state with a previously displayed dataset. -/
def C9state : SessionState :=
  ⟨[⟨"assistant", "hello"⟩], some [⟨0, sampleRecA, .str "Old"⟩]⟩

/-- C4 env for the counterexample: the model's reply parses as a JSON
array, not an object. -/
def C4env : Env :=
  ⟨some (.arr [.num 1]), fun _ _ _ _ => none, .ok "SUM", .ok "GENERAL",
   fun _ _ => .ok ()⟩

/-- C4 env for the witness of the amended claim's fallback half. -/
def C4envFallback : Env :=
  ⟨none, fun _ _ _ _ => none, .ok "SUM", .ok "GENERAL", fun _ _ => .ok ()⟩

/-- C6 env for the counterexample: the first extracted location entry has
no district, the second is complete. -/
def C6env : Env :=
  ⟨some (.obj [("is_data_request", .bool true),
     ("locations", .arr [.obj [("state", .str "MP")],
        .obj [("district", .str "Bhopal"), ("state", .str "MP"),
          ("start_date", .str "2024-01-01"), ("end_date", .str "2024-01-31")]])]),
   fun _ _ _ _ => some (some (.arr [.obj sampleRecA])),
   .ok "SUM", .ok "GENERAL", fun _ _ => .ok ()⟩

/-- C7 env for the counterexample: data request succeeds, the comparison
summary call raises. -/
def C7env : Env :=
  ⟨some (.obj [("is_data_request", .bool true),
     ("locations", .arr [.obj [("district", .str "Jaipur"), ("state", .str "RJ"),
        ("start_date", .str "2024-01-01"), ("end_date", .str "2024-01-31")]])]),
   fun _ _ _ _ => some (some (.arr [.obj sampleRecA])),
   .error "LLM down", .ok "GENERAL", fun _ _ => .ok ()⟩

/-- C7 env for the general-branch half of the amended witness. -/
def C7envGeneral : Env :=
  ⟨some (.obj [("is_data_request", .bool false)]), fun _ _ _ _ => none,
   .ok "SUM", .error "search down", fun _ _ => .ok ()⟩

/-- C8 env for the counterexample: the message-log insert raises on the
user message. -/
def C8env : Env :=
  ⟨some (.obj [("is_data_request", .bool false)]), fun _ _ _ _ => none, .ok "SUM",
   .ok "GENERAL",
   fun sender _ =>
     match sender with
     | "user" => .error "mongo down"
     | _ => .ok ()⟩

/-- C8 env for the log-succeeds half of the amended witness. -/
def C8okenv : Env :=
  ⟨some (.obj [("is_data_request", .bool false)]), fun _ _ _ _ => none, .ok "SUM",
   .ok "GENERAL", fun _ _ => .ok ()⟩

/- ## Properties -/

theorem toRecords_map_obj (rs : List (List (String × JValue))) :
    toRecords (rs.map JValue.obj) = some rs := by
  induction rs with
  | nil => rfl
  | cons r rest ih => simp [toRecords, JValue.asObj, ih]

theorem process_eq_of_hasColumns (rs : List (List (String × JValue))) (label : JValue)
    (h : (hasColumn rs "dataTime" && hasColumn rs "dataValue") = true) :
    process_groundwater_data (some (some (.arr (rs.map JValue.obj)))) label =
      (if (rs.filterMap (rowOf label)).isEmpty then none
       else some (sortRows (rs.filterMap (rowOf label)))) := by
  simp [process_groundwater_data, unwrapData, toRecords_map_obj, h]

theorem mem_sortRows {row : Row} {rows : List Row} :
    row ∈ sortRows rows ↔ row ∈ rows := List.mem_insertionSort byTime

theorem process_shape (raw : RawInput) (label : JValue) (df : List Row)
    (h : process_groundwater_data raw label = some df) :
    ∃ rows : List Row, rows ≠ [] ∧ df = sortRows rows ∧
      ∀ row ∈ rows, ∃ r, rowOf label r = some row := by
  unfold process_groundwater_data at h
  split at h
  · exact absurd h (by simp)
  · exact absurd h (by simp)
  · split at h
    case _ items =>
      split at h
      · exact absurd h (by simp)
      · rename_i rs hrs
        split at h
        · split at h
          · exact absurd h (by simp)
          · rename_i hne
            refine ⟨rs.filterMap (rowOf label), by simpa using hne, (Option.some.inj h).symm, ?_⟩
            intro row hrow
            obtain ⟨r, _, hr⟩ := List.mem_filterMap.mp hrow
            exact ⟨r, hr⟩
        · exact absurd h (by simp)
    all_goals exact absurd h (by simp)

theorem process_row_inv (raw : RawInput) (label : JValue) (df : List Row)
    (h : process_groundwater_data raw label = some df) :
    ∀ row ∈ df, row.district = label ∧
      parseCellTime (lookupField row.record "dataTime") = some row.timestamp := by
  obtain ⟨rows, -, hdf, hmem⟩ := process_shape raw label df h
  intro row hrow
  obtain ⟨r, hr⟩ := hmem row (mem_sortRows.mp (hdf ▸ hrow))
  obtain ⟨t, ht, hrw⟩ := Option.map_eq_some'.mp hr
  refine ⟨?_, ?_⟩ <;> simp [← hrw, ht]

theorem process_sorted (raw : RawInput) (label : JValue) (df : List Row)
    (h : process_groundwater_data raw label = some df) :
    df.Pairwise byTime := by
  obtain ⟨rows, -, hdf, -⟩ := process_shape raw label df h
  subst hdf
  exact List.sorted_insertionSort byTime rows

theorem process_ne_nil (raw : RawInput) (label : JValue) (df : List Row)
    (h : process_groundwater_data raw label = some df) :
    df ≠ [] := by
  obtain ⟨rows, hne, hdf, -⟩ := process_shape raw label df h
  subst hdf
  intro hnil
  apply hne
  have hlen := (List.perm_insertionSort byTime rows).length_eq
  rw [show List.insertionSort byTime rows = sortRows rows from rfl, hnil] at hlen
  exact List.eq_nil_of_length_eq_zero hlen.symm

theorem locCall_of_wf {loc : JValue} (h : WellFormedLoc loc) :
    ∃ d, districtOf loc = some d ∧ locCall loc = .ok (d, callOfLoc loc) := by
  obtain ⟨fs, rfl, hd, hs, he⟩ := h
  obtain ⟨d, hd⟩ := Option.isSome_iff_exists.mp hd
  obtain ⟨sd, hsd⟩ := Option.isSome_iff_exists.mp hs
  obtain ⟨ed, hed⟩ := Option.isSome_iff_exists.mp he
  refine ⟨d, by simp [districtOf, JValue.asObj, hd], ?_⟩
  simp [locCall, pyIndex, pyGet, callOfLoc, hd, hsd, hed, Except.bind, Except.map]

theorem locCall_ok_district {loc d : JValue} {call : FetchCall}
    (h : locCall loc = .ok (d, call)) : districtOf loc = some d := by
  unfold locCall at h
  cases loc with
  | obj fs =>
    simp only [pyIndex, pyGet] at h
    rcases hd : lookupField fs "district" with _ | dv
    · rw [hd] at h; exact absurd h (by simp [Except.bind])
    · rw [hd] at h
      rcases hsd : lookupField fs "start_date" with _ | sdv <;> rw [hsd] at h
      · exact absurd h (by simp [Except.bind])
      · rcases hed : lookupField fs "end_date" with _ | edv <;> rw [hed] at h
        · exact absurd h (by simp [Except.bind, Except.map])
        · simp [Except.bind, Except.map] at h
          simp [districtOf, JValue.asObj, hd, h.1]
  | null => exact absurd h (by simp [pyIndex, Except.bind])
  | bool b => exact absurd h (by simp [pyIndex, Except.bind])
  | num n => exact absurd h (by simp [pyIndex, Except.bind])
  | str s => exact absurd h (by simp [pyIndex, Except.bind])
  | arr xs => exact absurd h (by simp [pyIndex, Except.bind])

theorem runLocations_calls_of_wf (env : Env) (locs : List JValue)
    (h : ∀ loc ∈ locs, WellFormedLoc loc) :
    (runLocations env locs).1 = locs.map callOfLoc ∧
      ∃ dfs valids, (runLocations env locs).2 = .ok (dfs, valids) := by
  induction locs with
  | nil => exact ⟨rfl, [], [], rfl⟩
  | cons loc rest ih =>
    obtain ⟨d, -, hcall⟩ := locCall_of_wf (h loc (by simp))
    obtain ⟨ih1, dfs, valids, ih2⟩ := ih (fun l hl => h l (by simp [hl]))
    simp only [runLocations, hcall]
    refine ⟨by simp [ih1], ?_⟩
    rw [ih2]
    rcases hp : process_groundwater_data
        (env.fetch (callOfLoc loc).state (callOfLoc loc).district
          (callOfLoc loc).start_date (callOfLoc loc).end_date) d with _ | df
    · exact ⟨dfs, valids, by simp [Except.map]⟩
    · by_cases hdf : df.isEmpty = true
      · exact ⟨dfs, valids, by simp [Except.map, hdf]⟩
      · exact ⟨df :: dfs, d :: valids, by simp [Except.map, hdf]⟩

theorem runLocations_ok_mem (env : Env) (locs : List JValue) :
    ∀ (dfs : List (List Row)) (valids : List JValue),
      (runLocations env locs).2 = .ok (dfs, valids) →
      ∀ df ∈ dfs, ∃ loc ∈ locs, ∃ d call, locCall loc = .ok (d, call) ∧
        process_groundwater_data
          (env.fetch call.state call.district call.start_date call.end_date) d = some df := by
  induction locs with
  | nil =>
    intro dfs valids h df hdf
    simp only [runLocations, Except.ok.injEq, Prod.mk.injEq] at h
    obtain ⟨rfl, rfl⟩ := h
    simp at hdf
  | cons loc rest ih =>
    intro dfs valids h df hdf
    simp only [runLocations] at h
    rcases hcall : locCall loc with e | ⟨d, call⟩
    · rw [hcall] at h; exact absurd h (by simp)
    · rw [hcall] at h
      simp only at h
      rcases hr : (runLocations env rest).2 with e | ⟨dfs', valids'⟩
      · rw [hr] at h; exact absurd h (by simp [Except.map])
      · rw [hr] at h
        simp only [Except.map] at h
        split at h
        · rename_i df2 hp
          split at h
          · simp only [Except.ok.injEq, Prod.mk.injEq] at h
            obtain ⟨rfl, rfl⟩ := h
            obtain ⟨l, hl, rest'⟩ := ih dfs' valids' hr df hdf
            exact ⟨l, by simp [hl], rest'⟩
          · simp only [Except.ok.injEq, Prod.mk.injEq] at h
            obtain ⟨rfl, rfl⟩ := h
            rcases List.mem_cons.mp hdf with rfl | hdf2
            · exact ⟨loc, by simp, d, call, hcall, hp⟩
            · obtain ⟨l, hl, rest'⟩ := ih dfs' valids' hr df hdf2
              exact ⟨l, by simp [hl], rest'⟩
        · rename_i hp
          simp only [Except.ok.injEq, Prod.mk.injEq] at h
          obtain ⟨rfl, rfl⟩ := h
          obtain ⟨l, hl, rest'⟩ := ih dfs' valids' hr df hdf
          exact ⟨l, by simp [hl], rest'⟩

theorem runLocations_entry_error (env : Env) (pre : List JValue) (bad : JValue)
    (post : List JValue) (e : PyError)
    (hwf : ∀ loc ∈ pre, WellFormedLoc loc) (hbad : locCall bad = .error e) :
    runLocations env (pre ++ bad :: post) = (pre.map callOfLoc, .error e) := by
  induction pre with
  | nil => simp [runLocations, hbad]
  | cons loc rest ih =>
    obtain ⟨d, -, hcall⟩ := locCall_of_wf (hwf loc (by simp))
    have ih' := ih (fun l hl => hwf l (by simp [hl]))
    simp [runLocations, hcall, ih', Except.map]

theorem runTurn_log_err (env : Env) (st0 : SessionState) (input e : String)
    (h : env.log "user" input = .error e) :
    runTurn env st0 input = ⟨st0, [], some e⟩ := by
  simp [runTurn, h]

theorem runTurn_log_ok (env : Env) (st0 : SessionState) (input : String)
    (h : env.log "user" input = .ok ()) :
    runTurn env st0 input =
      turnBody env ⟨st0.chat_history ++ [⟨"user", input⟩], st0.groundwater_data⟩ := by
  simp [runTurn, h]

theorem finishTurn_log_ok (env : Env) (st : SessionState) (calls : List FetchCall)
    (reply : String) (h : env.log "assistant" reply = .ok ()) :
    finishTurn env st calls reply =
      ⟨⟨st.chat_history ++ [⟨"assistant", reply⟩], st.groundwater_data⟩, calls, none⟩ := by
  simp [finishTurn, h]

theorem finishTurn_dataset (env : Env) (st : SessionState) (calls : List FetchCall)
    (reply : String) :
    (finishTurn env st calls reply).state.groundwater_data = st.groundwater_data := by
  unfold finishTurn
  split <;> rfl

theorem finishTurn_history (env : Env) (st : SessionState) (calls : List FetchCall)
    (reply : String) :
    ∃ rest, (finishTurn env st calls reply).state.chat_history = st.chat_history ++ rest := by
  unfold finishTurn
  split
  · exact ⟨[], by simp⟩
  · exact ⟨[⟨"assistant", reply⟩], rfl⟩

theorem turnBody_general (env : Env) (st1 : SessionState) (flag : Option JValue)
    (hflag : pyGet (extract_params_from_llm env) "is_data_request" = .ok flag)
    (ht : (flag.getD .null).truthy = false) :
    turnBody env st1 = finishTurn env st1 [] (generalReply env) := by
  simp [turnBody, hflag, ht]

theorem turnBody_data (env : Env) (st1 : SessionState) (flag : Option JValue)
    (locs : List JValue)
    (hflag : pyGet (extract_params_from_llm env) "is_data_request" = .ok flag)
    (ht : (flag.getD .null).truthy = true)
    (hlocs : pyGet (extract_params_from_llm env) "locations" = .ok (some (.arr locs)))
    (hne : locs ≠ []) :
    turnBody env st1 = dataBranch env st1 locs := by
  obtain ⟨l, ls, rfl⟩ := List.exists_cons_of_ne_nil hne
  have harr : (JValue.arr (l :: ls)).truthy = true := rfl
  simp [turnBody, hflag, ht, hlocs, harr]

theorem dataBranch_no_data (env : Env) (st1 : SessionState) (locs : List JValue)
    (calls : List FetchCall) (valids : List JValue)
    (h : runLocations env locs = (calls, .ok ([], valids))) :
    dataBranch env st1 locs = finishTurn env st1 calls noDataReply := by
  simp [dataBranch, h]

theorem dataBranch_success (env : Env) (st1 : SessionState) (locs : List JValue)
    (calls : List FetchCall) (dfs : List (List Row)) (valids : List JValue)
    (h : runLocations env locs = (calls, .ok (dfs, valids))) (hne : dfs ≠ []) :
    dataBranch env st1 locs =
      match env.summarize with
      | .error e => ⟨⟨st1.chat_history, some dfs.flatten⟩, calls, some e⟩
      | .ok reply => finishTurn env ⟨st1.chat_history, some dfs.flatten⟩ calls reply := by
  have hemp : dfs.isEmpty = false := by
    cases dfs with
    | nil => exact absurd rfl hne
    | cons a l => rfl
  simp [dataBranch, h, hemp]

theorem turnBody_dataset (env : Env) (st1 : SessionState) :
    (turnBody env st1).state.groundwater_data = st1.groundwater_data ∨
    ∃ locs dfs valids,
      pyGet (extract_params_from_llm env) "locations" = .ok (some (.arr locs)) ∧
      (runLocations env locs).2 = .ok (dfs, valids) ∧
      (turnBody env st1).state.groundwater_data = some dfs.flatten := by
  unfold turnBody
  split
  · left; rfl
  · split
    · split
      · left; rfl
      · rename_i locs? hlocs
        split
        · left; exact finishTurn_dataset ..
        · rename_i htr
          split
          · rename_i locs harr
            have hsome : locs? = some (.arr locs) := by
              cases locs? with
              | none =>
                simp only [Option.getD] at harr
                cases harr
                simp [JValue.truthy, List.isEmpty] at htr
              | some v =>
                simp only [Option.getD] at harr
                rw [harr]
            unfold dataBranch
            split
            · left; rfl
            · rename_i calls dfs valids hrun
              by_cases hemp : dfs.isEmpty = true
              · left
                rw [if_pos hemp]
                exact finishTurn_dataset ..
              · rw [if_neg hemp]
                right
                refine ⟨locs, dfs, valids, hsome ▸ hlocs, by rw [hrun], ?_⟩
                split
                · rfl
                · exact finishTurn_dataset ..
          · left; rfl
    · left; exact finishTurn_dataset ..

theorem process_records_eq (rs : List (List (String × JValue))) (label : JValue) :
    process_groundwater_data (some (some (.arr (rs.map JValue.obj)))) label =
      if (hasColumn rs "dataTime" && hasColumn rs "dataValue") = true then
        (if (rs.filterMap (rowOf label)).isEmpty then none
         else some (sortRows (rs.filterMap (rowOf label))))
      else none := by
  by_cases hc : (hasColumn rs "dataTime" && hasColumn rs "dataValue") = true
  · rw [process_eq_of_hasColumns rs label hc, if_pos hc]
  · rw [if_neg hc]
    simp [process_groundwater_data, unwrapData, toRecords_map_obj, hc]

theorem finishTurn_calls (env : Env) (st : SessionState) (calls : List FetchCall)
    (reply : String) : (finishTurn env st calls reply).fetch_calls = calls := by
  unfold finishTurn
  split <;> rfl

theorem dataBranch_calls (env : Env) (st1 : SessionState) (locs : List JValue) :
    (dataBranch env st1 locs).fetch_calls = (runLocations env locs).1 := by
  unfold dataBranch
  rcases h : runLocations env locs with ⟨calls, r⟩
  cases r with
  | error e => rfl
  | ok acc =>
    rcases acc with ⟨dfs, valids⟩
    simp only
    split
    · rw [finishTurn_calls]
    · split
      · rfl
      · rw [finishTurn_calls]

theorem dataBranch_history (env : Env) (st1 : SessionState) (locs : List JValue) :
    ∃ rest, (dataBranch env st1 locs).state.chat_history = st1.chat_history ++ rest := by
  unfold dataBranch
  rcases h : runLocations env locs with ⟨calls, r⟩
  cases r with
  | error e => exact ⟨[], by simp⟩
  | ok acc =>
    rcases acc with ⟨dfs, valids⟩
    simp only
    split
    · exact finishTurn_history ..
    · split
      · exact ⟨[], by simp⟩
      · exact finishTurn_history ..

theorem turnBody_history (env : Env) (st1 : SessionState) :
    ∃ rest, (turnBody env st1).state.chat_history = st1.chat_history ++ rest := by
  unfold turnBody
  split
  · exact ⟨[], by simp⟩
  · split
    · split
      · exact ⟨[], by simp⟩
      · split
        · exact finishTurn_history ..
        · split
          · exact dataBranch_history ..
          · exact ⟨[], by simp⟩
    · exact finishTurn_history ..

/-- Claim C2: every table accepted by `process_groundwater_data` stamps each
row with exactly the given location label, each row carries a timestamp that
is the successful parse of the record time cell (never null), and the rows
are sorted non-decreasing by timestamp. -/
theorem C2_normalized_table_invariants (raw : RawInput) (label : JValue)
    (df : List Row) (h : process_groundwater_data raw label = some df) :
    (∀ row ∈ df, row.district = label ∧
      parseCellTime (lookupField row.record "dataTime") = some row.timestamp) ∧
    df.Pairwise byTime :=
  ⟨process_row_inv raw label df h, process_sorted raw label df h⟩

/-- Claim C2 witness: the invariants evaluated on a concrete two-record body
whose records arrive out of order. -/
theorem C2_witness :
    process_groundwater_data sampleRaw (.str "Jaipur") =
      some [⟨((2024 * 12 + 1) * 31 + 1) * 86400, sampleRecB, .str "Jaipur"⟩,
            ⟨((2024 * 12 + 1) * 31 + 2) * 86400, sampleRecA, .str "Jaipur"⟩] ∧
    ((∀ row ∈ [(⟨((2024 * 12 + 1) * 31 + 1) * 86400, sampleRecB, .str "Jaipur"⟩ : Row),
            ⟨((2024 * 12 + 1) * 31 + 2) * 86400, sampleRecA, .str "Jaipur"⟩],
        row.district = .str "Jaipur" ∧
        parseCellTime (lookupField row.record "dataTime") = some row.timestamp) ∧
      List.Pairwise byTime
        [(⟨((2024 * 12 + 1) * 31 + 1) * 86400, sampleRecB, .str "Jaipur"⟩ : Row),
         ⟨((2024 * 12 + 1) * 31 + 2) * 86400, sampleRecA, .str "Jaipur"⟩]) :=
  ⟨rfl, C2_normalized_table_invariants sampleRaw (.str "Jaipur") _ rfl⟩

/-- Claim C5: once the field-presence check passes, rows are filtered
individually on timestamp parseability (a row-level filter), and a table that
would come out empty is rejected; an accepted table is never empty. -/
theorem C5_row_level_filter_empty_rejected :
    (∀ (rs : List (List (String × JValue))) (label : JValue),
      (hasColumn rs "dataTime" && hasColumn rs "dataValue") = true →
      process_groundwater_data (some (some (.arr (rs.map JValue.obj)))) label =
        (if (rs.filterMap (rowOf label)).isEmpty then none
         else some (sortRows (rs.filterMap (rowOf label))))) ∧
    (∀ (raw : RawInput) (label : JValue) (df : List Row),
      process_groundwater_data raw label = some df → df ≠ []) :=
  ⟨fun rs label h => process_eq_of_hasColumns rs label h,
   fun raw label df h => process_ne_nil raw label df h⟩

/-- Claim C5 witness: the filter equation on a body with one parseable and
one unparseable record, and non-emptiness of the accepted result. -/
theorem C5_witness :
    process_groundwater_data
        (some (some (.arr ([sampleRecA, sampleRecBad].map JValue.obj)))) (.str "X") =
      (if ([sampleRecA, sampleRecBad].filterMap (rowOf (.str "X"))).isEmpty then none
       else some (sortRows ([sampleRecA, sampleRecBad].filterMap (rowOf (.str "X"))))) ∧
    ([(⟨((2024 * 12 + 1) * 31 + 2) * 86400, sampleRecA, .str "X"⟩ : Row)] ≠ []) :=
  ⟨C5_row_level_filter_empty_rejected.1 [sampleRecA, sampleRecBad] (.str "X") (by decide),
   C5_row_level_filter_empty_rejected.2
     (some (some (.arr ([sampleRecA, sampleRecBad].map JValue.obj)))) (.str "X") _ rfl⟩

/-- Claim C10 (implicit): normalization never inspects the dataValue column:
any record whose dataTime cell parses is retained whatever its dataValue
holds, the record passing through untouched — the declared numeric row type
is not enforced by any operation. -/
theorem C10_value_column_never_inspected (rs : List (List (String × JValue)))
    (label : JValue) (r : List (String × JValue))
    (hcols : (hasColumn rs "dataTime" && hasColumn rs "dataValue") = true)
    (hr : r ∈ rs)
    (ht : (parseCellTime (lookupField r "dataTime")).isSome = true) :
    ∃ df, process_groundwater_data (some (some (.arr (rs.map JValue.obj)))) label = some df ∧
      ∃ row ∈ df, row.record = r ∧
        lookupField row.record "dataValue" = lookupField r "dataValue" := by
  rw [process_eq_of_hasColumns rs label hcols]
  obtain ⟨t, ht'⟩ := Option.isSome_iff_exists.mp ht
  have hmem : (⟨t, r, label⟩ : Row) ∈ rs.filterMap (rowOf label) :=
    List.mem_filterMap.mpr ⟨r, hr, by simp [rowOf, ht']⟩
  have hne : (rs.filterMap (rowOf label)).isEmpty = false := by
    cases hfm : rs.filterMap (rowOf label) with
    | nil => rw [hfm] at hmem; simp at hmem
    | cons a l => rfl
  rw [if_neg (by simp [hne])]
  exact ⟨_, rfl, ⟨t, r, label⟩, mem_sortRows.mpr hmem, rfl, rfl⟩

/-- Claim C10 witness: a record with a null dataValue and a parseable
dataTime is retained in the normalized table. -/
theorem C10_witness :
    (hasColumn [sampleRecA, sampleRecB] "dataTime" &&
      hasColumn [sampleRecA, sampleRecB] "dataValue") = true ∧
    sampleRecB ∈ [sampleRecA, sampleRecB] ∧
    (parseCellTime (lookupField sampleRecB "dataTime")).isSome = true ∧
    (∃ df, process_groundwater_data
        (some (some (.arr ([sampleRecA, sampleRecB].map JValue.obj)))) (.str "X") = some df ∧
      ∃ row ∈ df, row.record = sampleRecB ∧
        lookupField row.record "dataValue" = lookupField sampleRecB "dataValue") :=
  ⟨by decide, by simp, by decide,
   C10_value_column_never_inspected [sampleRecA, sampleRecB] (.str "X") sampleRecB
     (by decide) (by simp) (by decide)⟩

/-- Claim C1: a record set lacking the dataValue column or the dataTime
column is rejected whole by `process_groundwater_data` (no partial-field
recovery), and over a whole turn every row of a dataset stored by the turn
carries a district taken from the extracted location queries — the label set
of the combined dataset is a subset of the requested districts. -/
theorem C1_missing_field_rejected_labels_subset :
    (∀ (rs : List (List (String × JValue))) (label : JValue),
      ¬ ((hasColumn rs "dataTime" && hasColumn rs "dataValue") = true) →
      process_groundwater_data (some (some (.arr (rs.map JValue.obj)))) label = none) ∧
    (∀ (env : Env) (st0 : SessionState) (input : String),
      (runTurn env st0 input).state.groundwater_data = st0.groundwater_data ∨
      ∀ row ∈ ((runTurn env st0 input).state.groundwater_data).getD [],
        row.district ∈ extractedDistricts (extract_params_from_llm env)) := by
  constructor
  · intro rs label h
    rw [process_records_eq, if_neg h]
  · intro env st0 input
    rcases hlog : env.log "user" input with e | u
    · left; rw [runTurn_log_err env st0 input e hlog]
    · cases u
      rw [runTurn_log_ok env st0 input hlog]
      rcases turnBody_dataset env
          ⟨st0.chat_history ++ [⟨"user", input⟩], st0.groundwater_data⟩ with
        hsame | ⟨locs, dfs, valids, hlocs, hrun, hset⟩
      · left; rw [hsame]
      · right
        rw [hset]
        intro row hrow
        simp only [Option.getD] at hrow
        obtain ⟨df, hdf, hrowdf⟩ := List.mem_flatten.mp hrow
        obtain ⟨loc, hloc, d, call, hcall, hproc⟩ :=
          runLocations_ok_mem env locs dfs valids hrun df hdf
        have hd := (process_row_inv _ _ _ hproc row hrowdf).1
        have hdd := locCall_ok_district hcall
        rw [extractedDistricts, hlocs]
        exact List.mem_filterMap.mpr ⟨loc, hloc, by rw [hdd, hd]⟩

/-- Claim C1 witness: a one-record body lacking dataValue is rejected, and
the subset property instantiated on a concrete turn. -/
theorem C1_witness :
    process_groundwater_data
      (some (some (.arr ([[("dataTime", JValue.str "2024-01-05")]].map JValue.obj))))
      (.str "Jaipur") = none ∧
    ((runTurn C1env initState "show").state.groundwater_data = initState.groundwater_data ∨
      ∀ row ∈ ((runTurn C1env initState "show").state.groundwater_data).getD [],
        row.district ∈ extractedDistricts (extract_params_from_llm C1env)) :=
  ⟨C1_missing_field_rejected_labels_subset.1 [[("dataTime", .str "2024-01-05")]]
     (.str "Jaipur") (by decide),
   C1_missing_field_rejected_labels_subset.2 C1env initState "show"⟩

/-- Claim C3: a data-request turn with well-formed locations issues exactly
the fetch calls described by the location entries, one per entry and in
order, for every provider environment — so a failing fetch or normalization
of one location never blocks the remaining fetch attempts, and no location
is retried. -/
theorem C3_exactly_one_fetch_per_location (env : Env) (st0 : SessionState)
    (input : String) (flag : Option JValue) (locs : List JValue)
    (hlog : env.log "user" input = .ok ())
    (hflag : pyGet (extract_params_from_llm env) "is_data_request" = .ok flag)
    (ht : (flag.getD .null).truthy = true)
    (hlocs : pyGet (extract_params_from_llm env) "locations" = .ok (some (.arr locs)))
    (hne : locs ≠ [])
    (hwf : ∀ loc ∈ locs, WellFormedLoc loc) :
    (runTurn env st0 input).fetch_calls = locs.map callOfLoc := by
  rw [runTurn_log_ok env st0 input hlog,
      turnBody_data env _ flag locs hflag ht hlocs hne,
      dataBranch_calls env _ locs]
  exact (runLocations_calls_of_wf env locs hwf).1

/-- Claim C3 witness: a two-location turn in which the first fetch returns
nothing still issues both calls. -/
theorem C3_witness :
    (runTurn C3env initState "compare").fetch_calls =
      [.obj [("district", JValue.str "Raipur"), ("state", .str "CG"),
        ("start_date", .str "2024-01-01"), ("end_date", .str "2024-01-31")],
       .obj [("district", .str "Bhopal"), ("state", .str "MP"),
        ("start_date", .str "2024-01-01"), ("end_date", .str "2024-01-31")]].map callOfLoc :=
  C3_exactly_one_fetch_per_location C3env initState "compare" (some (.bool true)) _
    rfl rfl rfl rfl (by simp)
    (by
      intro loc hl
      rcases List.mem_cons.mp hl with rfl | hl2
      · exact ⟨_, rfl, rfl, rfl, rfl⟩
      · rcases List.mem_cons.mp hl2 with rfl | hl3
        · exact ⟨_, rfl, rfl, rfl, rfl⟩
        · cases hl3)

/-- Claim C9: when every location of a data-request turn fails fetch or
normalization (the loop accumulates no tables), the stored comparison
dataset is left unchanged and the assistant appends the no-data reply. -/
theorem C9_total_failure_keeps_dataset (env : Env) (st0 : SessionState)
    (input : String) (flag : Option JValue) (locs : List JValue)
    (calls : List FetchCall) (valids : List JValue)
    (hlog : ∀ s c, env.log s c = .ok ())
    (hflag : pyGet (extract_params_from_llm env) "is_data_request" = .ok flag)
    (ht : (flag.getD .null).truthy = true)
    (hlocs : pyGet (extract_params_from_llm env) "locations" = .ok (some (.arr locs)))
    (hne : locs ≠ [])
    (hrun : runLocations env locs = (calls, .ok ([], valids))) :
    (runTurn env st0 input).state.groundwater_data = st0.groundwater_data ∧
    (runTurn env st0 input).state.chat_history =
      st0.chat_history ++ [⟨"user", input⟩, ⟨"assistant", noDataReply⟩] ∧
    (runTurn env st0 input).displayed_error = none := by
  rw [runTurn_log_ok env st0 input (hlog "user" input),
      turnBody_data env _ flag locs hflag ht hlocs hne,
      dataBranch_no_data env _ locs calls valids hrun,
      finishTurn_log_ok env _ calls noDataReply (hlog "assistant" noDataReply)]
  exact ⟨rfl, by simp, rfl⟩

/-- Claim C9 witness: a turn whose only fetch fails leaves a previously
displayed dataset in place and replies that no data was found. -/
theorem C9_witness :
    (runTurn C9env C9state "show").state.groundwater_data =
      some [⟨0, sampleRecA, .str "Old"⟩] ∧
    (runTurn C9env C9state "show").state.chat_history =
      [⟨"assistant", "hello"⟩] ++ [⟨"user", "show"⟩, ⟨"assistant", noDataReply⟩] ∧
    (runTurn C9env C9state "show").displayed_error = none :=
  C9_total_failure_keeps_dataset C9env C9state "show" (some (.bool true))
    [.obj [("district", .str "Jaipur"), ("state", .str "RJ"),
      ("start_date", .str "2024-01-01"), ("end_date", .str "2024-01-31")]]
    [⟨.str "RJ", .str "Jaipur", .str "2024-01-01", .str "2024-01-31"⟩] []
    (fun s c => rfl) rfl rfl rfl (by simp) rfl

/-- Claim C4 counterexample: when the model reply parses as a JSON array,
`extract_params_from_llm` returns the array unchanged — not a false/empty
result — and the turn aborts through the outer handler with an
AttributeError instead of degrading to a general-chat reply. -/
theorem C4_counterexample :
    extract_params_from_llm C4env = .arr [.num 1] ∧
    (runTurn C4env initState "hello").displayed_error = some "AttributeError" ∧
    (runTurn C4env initState "hello").state.chat_history = [⟨"user", "hello"⟩] :=
  ⟨rfl, rfl, rfl⟩

/-- Claim C4 amended: when the language-model call raises or its reply
fails to parse as JSON, extraction returns the false/empty object and the
turn takes the general-chat branch; when the reply parses to a non-object
value, extraction returns it verbatim and the turn aborts with a displayed
AttributeError, appending no reply and leaving the dataset unchanged. -/
theorem C4_amended (env : Env) (st0 : SessionState) (input : String) :
    (env.extract_response = none →
      extract_params_from_llm env = .obj [("is_data_request", .bool false)] ∧
      (env.log "user" input = .ok () →
        runTurn env st0 input =
          finishTurn env ⟨st0.chat_history ++ [⟨"user", input⟩], st0.groundwater_data⟩ []
            (generalReply env))) ∧
    (∀ v, env.extract_response = some v → v.asObj = none →
      extract_params_from_llm env = v ∧
      (env.log "user" input = .ok () →
        (runTurn env st0 input).displayed_error = some PyError.attributeError.msg ∧
        (runTurn env st0 input).state.chat_history =
          st0.chat_history ++ [⟨"user", input⟩] ∧
        (runTurn env st0 input).state.groundwater_data = st0.groundwater_data)) := by
  constructor
  · intro hex
    have hval : extract_params_from_llm env = .obj [("is_data_request", .bool false)] := by
      simp [extract_params_from_llm, hex]
    refine ⟨hval, fun hlog => ?_⟩
    rw [runTurn_log_ok env st0 input hlog,
        turnBody_general env _ (some (.bool false)) (by rw [hval]; rfl) rfl]
  · intro v hex hobj
    have hval : extract_params_from_llm env = v := by
      simp [extract_params_from_llm, hex]
    refine ⟨hval, fun hlog => ?_⟩
    have hpg : pyGet (extract_params_from_llm env) "is_data_request" =
        .error .attributeError := by
      rw [hval]
      cases v with
      | obj fs => exact absurd hobj (by simp [JValue.asObj])
      | null => rfl
      | bool b => rfl
      | num n => rfl
      | str s => rfl
      | arr xs => rfl
    rw [runTurn_log_ok env st0 input hlog]
    unfold turnBody
    rw [hpg]
    exact ⟨rfl, rfl, rfl⟩

/-- Claim C4 amended witness: both halves evaluated, one environment per
half. -/
theorem C4_amended_witness :
    extract_params_from_llm C4envFallback = .obj [("is_data_request", .bool false)] ∧
    runTurn C4envFallback initState "hi" =
      finishTurn C4envFallback
        ⟨initState.chat_history ++ [⟨"user", "hi"⟩], initState.groundwater_data⟩ []
        (generalReply C4envFallback) ∧
    extract_params_from_llm C4env = .arr [.num 1] ∧
    (runTurn C4env initState "hi").displayed_error = some PyError.attributeError.msg :=
  ⟨((C4_amended C4envFallback initState "hi").1 rfl).1,
   ((C4_amended C4envFallback initState "hi").1 rfl).2 rfl,
   ((C4_amended C4env initState "hi").2 (.arr [.num 1]) rfl rfl).1,
   ((((C4_amended C4env initState "hi").2 (.arr [.num 1]) rfl rfl).2) rfl).1⟩

/-- Claim C6 counterexample: a location entry lacking a district is not
dropped silently — the lookup raises KeyError, the turn aborts before any
fetch, and the remaining complete entry is never processed. -/
theorem C6_counterexample :
    (runTurn C6env initState "compare").displayed_error = some "KeyError: district" ∧
    (runTurn C6env initState "compare").fetch_calls = [] ∧
    (runTurn C6env initState "compare").state.chat_history = [⟨"user", "compare"⟩] ∧
    (runTurn C6env initState "compare").state.groundwater_data = none :=
  ⟨rfl, rfl, rfl, rfl⟩

/-- Claim C6 amended: an entry lacking district raises KeyError district,
aborting the turn with a displayed error right after the fetches of the
preceding well-formed entries, dataset and history (beyond the user message)
untouched; a missing state is kept as the empty string; an entry lacking
start_date likewise raises — the code applies no date defaulting of its own
(defaults are only requested from the model inside the prompt). -/
theorem C6_amended (env : Env) (st0 : SessionState) (input : String)
    (flag : Option JValue) (pre post : List JValue) (fs : List (String × JValue))
    (hlog : env.log "user" input = .ok ())
    (hflag : pyGet (extract_params_from_llm env) "is_data_request" = .ok flag)
    (ht : (flag.getD .null).truthy = true)
    (hlocs : pyGet (extract_params_from_llm env) "locations" =
      .ok (some (.arr (pre ++ JValue.obj fs :: post))))
    (hwf : ∀ loc ∈ pre, WellFormedLoc loc)
    (hnd : lookupField fs "district" = none) :
    (runTurn env st0 input).displayed_error = some "KeyError: district" ∧
    (runTurn env st0 input).fetch_calls = pre.map callOfLoc ∧
    (runTurn env st0 input).state.groundwater_data = st0.groundwater_data ∧
    (runTurn env st0 input).state.chat_history =
      st0.chat_history ++ [⟨"user", input⟩] ∧
    (∀ fs2 : List (String × JValue), lookupField fs2 "state" = none →
      (callOfLoc (.obj fs2)).state = .str "") ∧
    (∀ (fs2 : List (String × JValue)) (d : JValue),
      lookupField fs2 "district" = some d → lookupField fs2 "start_date" = none →
      locCall (.obj fs2) = .error (.keyError "start_date")) := by
  have hbad : locCall (.obj fs) = .error (.keyError "district") := by
    simp [locCall, pyIndex, hnd, Except.bind]
  have hrunl := runLocations_entry_error env pre (.obj fs) post _ hwf hbad
  rw [runTurn_log_ok env st0 input hlog,
      turnBody_data env _ flag (pre ++ JValue.obj fs :: post) hflag ht hlocs (by simp)]
  unfold dataBranch
  rw [hrunl]
  refine ⟨rfl, rfl, rfl, rfl, ?_, ?_⟩
  · intro fs2 h
    simp [callOfLoc, h]
  · intro fs2 d h1 h2
    simp [locCall, pyIndex, pyGet, h1, h2, Except.bind]

/-- Claim C6 amended witness: the abort evaluated on a concrete turn whose
first entry has only a state, plus the empty-state default. -/
theorem C6_amended_witness :
    (runTurn C6env initState "compare").displayed_error = some "KeyError: district" ∧
    (runTurn C6env initState "compare").fetch_calls = [] ∧
    (runTurn C6env initState "compare").state.groundwater_data =
      initState.groundwater_data ∧
    (callOfLoc (.obj [("district", JValue.str "X")])).state = .str "" := by
  have h := C6_amended C6env initState "compare" (some (.bool true)) []
    [.obj [("district", .str "Bhopal"), ("state", .str "MP"),
      ("start_date", .str "2024-01-01"), ("end_date", .str "2024-01-31")]]
    [("state", .str "MP")] rfl rfl rfl rfl (by intro loc hl; cases hl) rfl
  exact ⟨h.1, h.2.1, h.2.2.1, h.2.2.2.2.1 [("district", .str "X")] rfl⟩

/-- Claim C7 counterexample: when the comparison-summary call raises, the
turn ends with only a displayed error — no error string is appended to the
session history as the assistant reply — while the dataset has already been
replaced. -/
theorem C7_counterexample :
    (runTurn C7env initState "show").displayed_error = some "LLM down" ∧
    (runTurn C7env initState "show").state.chat_history = [⟨"user", "show"⟩] ∧
    (runTurn C7env initState "show").state.groundwater_data =
      some [⟨((2024 * 12 + 1) * 31 + 2) * 86400, sampleRecA, .str "Jaipur"⟩] :=
  ⟨rfl, rfl, rfl⟩

/-- Claim C7 amended: a failure of the general-reply call degrades to an
error string appended as the assistant reply and the turn completes with no
displayed error; a failure of the comparison-summary call instead reaches
the outer handler — the error is displayed, nothing is appended, and the
dataset has already been replaced. -/
theorem C7_amended :
    (∀ (env : Env) (st0 : SessionState) (input : String) (flag : Option JValue)
        (e : String),
      (∀ s c, env.log s c = .ok ()) →
      pyGet (extract_params_from_llm env) "is_data_request" = .ok flag →
      (flag.getD .null).truthy = false →
      env.general = .error e →
      (runTurn env st0 input).state.chat_history =
        st0.chat_history ++ [⟨"user", input⟩,
          ⟨"assistant", "Error during web search: " ++ e⟩] ∧
      (runTurn env st0 input).displayed_error = none) ∧
    (∀ (env : Env) (st0 : SessionState) (input : String) (flag : Option JValue)
        (locs : List JValue) (calls : List FetchCall) (dfs : List (List Row))
        (valids : List JValue) (e : String),
      env.log "user" input = .ok () →
      pyGet (extract_params_from_llm env) "is_data_request" = .ok flag →
      (flag.getD .null).truthy = true →
      pyGet (extract_params_from_llm env) "locations" = .ok (some (.arr locs)) →
      locs ≠ [] →
      runLocations env locs = (calls, .ok (dfs, valids)) →
      dfs ≠ [] →
      env.summarize = .error e →
      (runTurn env st0 input).displayed_error = some e ∧
      (runTurn env st0 input).state.chat_history =
        st0.chat_history ++ [⟨"user", input⟩] ∧
      (runTurn env st0 input).state.groundwater_data = some dfs.flatten) := by
  constructor
  · intro env st0 input flag e hlog hflag ht hgen
    rw [runTurn_log_ok env st0 input (hlog "user" input),
        turnBody_general env _ flag hflag ht]
    have hgr : generalReply env = "Error during web search: " ++ e := by
      simp [generalReply, hgen]
    rw [hgr, finishTurn_log_ok env _ [] _ (hlog "assistant" _)]
    exact ⟨by simp, rfl⟩
  · intro env st0 input flag locs calls dfs valids e hlog hflag ht hlocs hne hrun hdfs hsum
    rw [runTurn_log_ok env st0 input hlog,
        turnBody_data env _ flag locs hflag ht hlocs hne,
        dataBranch_success env _ locs calls dfs valids hrun hdfs, hsum]
    exact ⟨rfl, rfl, rfl⟩

/-- Claim C7 amended witness: both halves evaluated, one environment per
half. -/
theorem C7_amended_witness :
    ((runTurn C7envGeneral initState "what is groundwater").state.chat_history =
      [] ++ [⟨"user", "what is groundwater"⟩,
        ⟨"assistant", "Error during web search: " ++ "search down"⟩] ∧
      (runTurn C7envGeneral initState "what is groundwater").displayed_error = none) ∧
    ((runTurn C7env initState "show").displayed_error = some "LLM down" ∧
      (runTurn C7env initState "show").state.chat_history = [] ++ [⟨"user", "show"⟩] ∧
      (runTurn C7env initState "show").state.groundwater_data =
        some [[(⟨((2024 * 12 + 1) * 31 + 2) * 86400, sampleRecA, .str "Jaipur"⟩ : Row)]].flatten) :=
  ⟨C7_amended.1 C7envGeneral initState "what is groundwater" (some (.bool false))
      "search down" (fun s c => rfl) rfl rfl rfl,
   C7_amended.2 C7env initState "show" (some (.bool true))
      [.obj [("district", .str "Jaipur"), ("state", .str "RJ"),
        ("start_date", .str "2024-01-01"), ("end_date", .str "2024-01-31")]]
      [⟨.str "RJ", .str "Jaipur", .str "2024-01-01", .str "2024-01-31"⟩]
      [[⟨((2024 * 12 + 1) * 31 + 2) * 86400, sampleRecA, .str "Jaipur"⟩]]
      [.str "Jaipur"] "LLM down"
      rfl rfl rfl rfl (by simp) rfl (by simp) rfl⟩

/-- Claim C8 counterexample: `save_message` runs before the history append,
so a failing message-log write aborts the turn with the session state
untouched — the user message is lost from the history, refuting
append-before-any-external-call. -/
theorem C8_counterexample :
    runTurn C8env initState "precious" = ⟨initState, [], some "mongo down"⟩ ∧
    (runTurn C8env initState "precious").state.chat_history = [] :=
  ⟨rfl, rfl⟩

/-- Claim C8 amended: when the user-message log write succeeds, the user
message is appended to the history before the language-model and provider
calls — every later outcome only extends the appended history; when the log
write raises, the turn aborts with the state unchanged and the message is
lost. -/
theorem C8_amended (env : Env) (st0 : SessionState) (input : String) :
    (env.log "user" input = .ok () →
      ∃ rest, (runTurn env st0 input).state.chat_history =
        st0.chat_history ++ ⟨"user", input⟩ :: rest) ∧
    (∀ e, env.log "user" input = .error e →
      runTurn env st0 input = ⟨st0, [], some e⟩) := by
  constructor
  · intro hlog
    rw [runTurn_log_ok env st0 input hlog]
    obtain ⟨rest, h⟩ := turnBody_history env
      ⟨st0.chat_history ++ [⟨"user", input⟩], st0.groundwater_data⟩
    exact ⟨rest, by rw [h]; simp⟩
  · intro e h
    exact runTurn_log_err env st0 input e h

/-- Claim C8 amended witness: the lost-message half on a failing log, the
append half on a succeeding one. -/
theorem C8_amended_witness :
    runTurn C8env initState "precious" = ⟨initState, [], some "mongo down"⟩ ∧
    (∃ rest, (runTurn C8okenv initState "precious").state.chat_history =
      initState.chat_history ++ ⟨"user", "precious"⟩ :: rest) :=
  ⟨(C8_amended C8env initState "precious").2 "mongo down" rfl,
   (C8_amended C8okenv initState "precious").1 rfl⟩

end Groundwater
